import Mathlib

/-!
Verification of the Weather_Bot repository (src/weather_bot.py).

The development shallowly embeds the pure core of the bot:
  * location-input resolution (the URL-building branch of `get_weather`,
    lines 52-84): comma detection, `str.split(',')`, `str.strip()` and
    `float(...)` parsing;
  * the TTL cache logic of `get_weather` (lines 42-102), with the upstream
    HTTP requests abstracted as fetch-outcome parameters and an explicit
    `fetched` flag recording whether the current-conditions request was
    issued;
  * the image generation of `generate_weather_image` (lines 104-170), with
    PIL images modelled as a dimensions-plus-drawn-text record and asset /
    font loading modelled as fallible lookups;
  * the caption construction and reply logic of `weather_handler`
    (lines 180-226).

Times are rationals (Python `time.time()` returns a real-valued clock);
numeric weather fields are rationals.  Character-level helpers (`pyLower`,
`pyCapitalize`) use Lean's ASCII case maps; Python's are Unicode-aware, but
no claim below depends on case-mapping a non-ASCII character.  `pyFloat?`
models `float(...)` on finite decimal literals (optional sign, digits with
optional fractional part, optional exponent); the special values
inf/nan and digit underscores are not modelled, and no claim depends on
them.
-/

/-- Python `str.strip()` / `float()` whitespace: space, tab, newline,
carriage return, vertical tab, form feed. -/
def pyIsSpace (c : Char) : Bool :=
  c = ' ' || c = '\t' || c = '\n' || c = '\r' || c = '\x0b' || c = '\x0c'

/-- Python `str.strip()` on a character list: drop whitespace from both ends. -/
def stripChars (cs : List Char) : List Char :=
  ((cs.dropWhile pyIsSpace).reverse.dropWhile pyIsSpace).reverse

/-- Python `str.strip()`. -/
def pyStrip (s : String) : String :=
  String.mk (stripChars s.data)

/-- Python `str.lower()` (ASCII case map). -/
def pyLower (s : String) : String :=
  String.mk (s.data.map Char.toLower)

/-- Python `str.capitalize()`: first character uppercased, the rest
lowercased (ASCII case map). -/
def pyCapitalize (s : String) : String :=
  match s.data with
  | [] => ""
  | c :: rest => String.mk (c.toUpper :: rest.map Char.toLower)

/-- Numeric value of a digit character. -/
def digitVal (c : Char) : ℕ := c.toNat - 48

/-- Value of a digit string read in base 10. -/
def digitsToNat (cs : List Char) : ℕ :=
  cs.foldl (fun a c => a * 10 + digitVal c) 0

/-- Mantissa of a Python float literal: digits with an optional decimal
point, at least one digit in total.  Returns the value as an exact
numerator / denominator pair (denominator a power of ten) together with
the unconsumed suffix (a possible exponent). -/
def parseMantissa (cs : List Char) : Option ((ℤ × ℕ) × List Char) :=
  let intPart := cs.takeWhile Char.isDigit
  let rest := cs.dropWhile Char.isDigit
  match rest with
  | '.' :: r2 =>
    let fracPart := r2.takeWhile Char.isDigit
    let rest2 := r2.dropWhile Char.isDigit
    if intPart.isEmpty && fracPart.isEmpty then none
    else
      some ((Int.ofNat (digitsToNat intPart * 10 ^ fracPart.length
          + digitsToNat fracPart), 10 ^ fracPart.length), rest2)
  | _ =>
    if intPart.isEmpty then none
    else some ((Int.ofNat (digitsToNat intPart), 1), rest)

/-- Unsigned Python float literal: mantissa followed by an optional
`e`/`E` exponent; the whole input must be consumed.  The value is kept as
a numerator / denominator pair. -/
def parseUnsignedFloat (cs : List Char) : Option (ℤ × ℕ) :=
  match parseMantissa cs with
  | none => none
  | some (m, rest) =>
    match rest with
    | [] => some m
    | e :: r2 =>
      if e = 'e' || e = 'E' then
        let signedTail : Bool × List Char :=
          match r2 with
          | '+' :: t => (true, t)
          | '-' :: t => (false, t)
          | t => (true, t)
        let expDigits := signedTail.2.takeWhile Char.isDigit
        let rest3 := signedTail.2.dropWhile Char.isDigit
        if expDigits.isEmpty || !rest3.isEmpty then none
        else if signedTail.1 then
          some (m.1 * (10 : ℤ) ^ digitsToNat expDigits, m.2)
        else some (m.1, m.2 * 10 ^ digitsToNat expDigits)
      else none

/-- Python `float(str)` on finite decimal literals: strip whitespace,
optional sign, unsigned literal.  `none` models the `ValueError` branch. -/
def pyFloat? (cs : List Char) : Option ℚ :=
  let signed : Option (Bool × (ℤ × ℕ)) :=
    match stripChars cs with
    | '+' :: t => (parseUnsignedFloat t).map (fun m => (false, m))
    | '-' :: t => (parseUnsignedFloat t).map (fun m => (true, m))
    | t => (parseUnsignedFloat t).map (fun m => (false, m))
  signed.map (fun sm => mkRat (if sm.1 then -sm.2.1 else sm.2.1) sm.2.2)

/-- Python `str.split(',')`: split at EVERY comma; always returns at least
one (possibly empty) field. -/
def splitOnComma (cs : List Char) : List (List Char) :=
  match cs with
  | [] => [[]]
  | c :: rest =>
    if c = ',' then [] :: splitOnComma rest
    else
      match splitOnComma rest with
      | [] => [[c]]
      | h :: t => (c :: h) :: t

/-- The spec's `LocationQuery`: a free-text place name or a parsed
coordinate pair. -/
inductive LocationQuery where
  | NamedPlace (raw : String)
  | Coordinates (lat lon : ℚ)
deriving DecidableEq

/-- The URL-building branch of `get_weather` (weather_bot.py lines 52-84)
as the spec's `resolve`: if the location contains a comma, `split(',')`
and `float(parts[0].strip())`, `float(parts[1].strip())`; both parses
succeeding yields `Coordinates`, a `ValueError` falls back to the whole
original string as a named place; no comma always yields the named place. -/
def resolve (location : String) : LocationQuery :=
  if ',' ∈ location.data then
    let parts := splitOnComma location.data
    match pyFloat? (stripChars (parts.getD 0 [])),
          pyFloat? (stripChars (parts.getD 1 [])) with
    | some lat, some lon => .Coordinates lat lon
    | _, _ => .NamedPlace location
  else
    .NamedPlace location

/-- Split at the FIRST comma only, into exactly two parts; `none` when no
comma occurs. -/
def splitFirstComma (cs : List Char) : Option (List Char × List Char) :=
  match cs with
  | [] => none
  | c :: rest =>
    if c = ',' then some ([], rest)
    else (splitFirstComma rest).map (fun p => (c :: p.1, p.2))

/-- Resolution as the spec's words describe it: the input is split on the
FIRST comma into exactly two parts, both trimmed and parsed as floats.
Compared against `resolve`, which (like the source) splits at every comma
and reads the first two fields. -/
def resolveSpec (location : String) : LocationQuery :=
  match splitFirstComma location.data with
  | some (p0, p1) =>
    match pyFloat? (stripChars p0), pyFloat? (stripChars p1) with
    | some lat, some lon => .Coordinates lat lon
    | _, _ => .NamedPlace location
  | none => .NamedPlace location

/-- Resolution as amended: split on every comma, trim and parse the first
two fields, ignore any fields after the second comma; on both parses
succeeding return the coordinates, otherwise the entire original string as
a named place; with no comma, always the named place. -/
def resolveAmended (location : String) : LocationQuery :=
  match splitOnComma location.data with
  | p0 :: p1 :: _ =>
    match pyFloat? (stripChars p0), pyFloat? (stripChars p1) with
    | some lat, some lon => .Coordinates lat lon
    | _, _ => .NamedPlace location
  | _ => .NamedPlace location

/-- The fields of the current-conditions JSON that the bot reads:
`weather[0].main`, `weather[0].description`, `main.temp`, `wind.speed`. -/
structure CurrentData where
  main : String
  description : String
  temp : ℚ
  windSpeed : ℚ
deriving DecidableEq

/-- One entry of the forecast JSON's `list`: the fields read are
`weather[0].main` and `weather[0].description`. -/
structure ForecastEntry where
  main : String
  description : String
deriving DecidableEq

/-- The forecast JSON: the bot only reads its `list` array.  A response
without a `list` key behaves exactly like an empty `list` (the guard
`forecast and "list" in forecast and len(forecast["list"]) > 0` treats
both the same), so the missing-key case is folded into the empty list. -/
structure ForecastData where
  entries : List ForecastEntry
deriving DecidableEq

/-- A `weather_cache` value: `(timestamp, current_data, forecast_data)`. -/
structure CacheEntry where
  timestamp : ℚ
  current : CurrentData
  forecast : Option ForecastData
deriving DecidableEq

/-- The `weather_cache` dict, keyed by the lowercased location string. -/
def Cache : Type := String → Option CacheEntry

/-- `CACHE_TTL = 600` seconds (10 minutes). -/
def CACHE_TTL : ℚ := 600

/-- Python dict assignment `weather_cache[key] = e`. -/
def updateCache (cache : Cache) (key : String) (e : CacheEntry) : Cache :=
  fun k => if k = key then some e else cache k

/-- Outcome of the current-conditions request in `get_weather`:
`requests.get(url_current)` returning a non-200 HTTP status
(the spec's `FetchError::Unavailable`), or a 200 response whose body has
`cod != 200` (the provider's not-found report, the spec's
`FetchError::NotFound`), or a usable body. -/
inductive CurrentFetchResult where
  | httpNot200
  | codNot200
  | success (data : CurrentData)
deriving DecidableEq

/-- What one call of `get_weather` did: the returned
`(current_data, forecast_data)` pair (`none` models the `None, None`
failure return), the cache dict after the call, and whether the
current-conditions request was issued at all. -/
structure GetWeatherResult where
  result : Option (CurrentData × Option ForecastData)
  cache : Cache
  fetched : Bool

/-- The fetch-and-store tail of `get_weather` (weather_bot.py lines
86-102): issue the current-conditions request; on HTTP failure or a
non-200 `cod`, return `None, None` without touching the cache; on
success, issue the best-effort forecast request (`none` models its
failure), store `(now, current, forecast)` under the key, and return the
pair. -/
def getWeatherFetch (cache : Cache) (key : String) (now : ℚ)
    (fetchCurrent : CurrentFetchResult) (fetchForecast : Option ForecastData) :
    GetWeatherResult :=
  match fetchCurrent with
  | .httpNot200 => ⟨none, cache, true⟩
  | .codNot200 => ⟨none, cache, true⟩
  | .success c => ⟨some (c, fetchForecast),
      updateCache cache key ⟨now, c, fetchForecast⟩, true⟩

/-- `get_weather` (weather_bot.py lines 36-102): capture `now =
time.time()` once at entry, lowercase the location into the cache key,
answer from the cache when an entry exists and `now - timestamp <
CACHE_TTL`, otherwise fetch.  The upstream requests are abstracted as the
two fetch-outcome parameters; the URL construction between the cache
check and the requests is `resolve` above and does not affect the cache
logic. -/
def getWeather (cache : Cache) (now : ℚ) (location : String)
    (fetchCurrent : CurrentFetchResult) (fetchForecast : Option ForecastData) :
    GetWeatherResult :=
  let key := pyLower location
  match cache key with
  | some e =>
    if now - e.timestamp < CACHE_TTL then
      ⟨some (e.current, e.forecast), cache, false⟩
    else getWeatherFetch cache key now fetchCurrent fetchForecast
  | none => getWeatherFetch cache key now fetchCurrent fetchForecast

/-- Background asset selection in `generate_weather_image`
(weather_bot.py lines 115-125). -/
def backgroundPath (mainWeather : String) : String :=
  if mainWeather = "Clear" then "assets/sunny.png"
  else if mainWeather = "Rain" then "assets/rain.png"
  else if mainWeather = "Snow" then "assets/snow.png"
  else if mainWeather = "Clouds" then "assets/cloudy.png"
  else "assets/default.png"

/-- Background selection as the spec's words describe it, with a fog
asset for the Fog / Mist / Haze categories; compared against
`backgroundPath`, which has no such case. -/
def backgroundSpec (mainWeather : String) : String :=
  if mainWeather = "Clear" then "assets/sunny.png"
  else if mainWeather = "Rain" then "assets/rain.png"
  else if mainWeather = "Snow" then "assets/snow.png"
  else if mainWeather = "Clouds" then "assets/cloudy.png"
  else if mainWeather = "Fog" || mainWeather = "Mist" || mainWeather = "Haze"
    then "assets/fog.png"
  else "assets/default.png"

/-- The font used for the overlay: `ImageFont.truetype("DejaVuSans.ttf",
36)`, or `ImageFont.load_default()` on `IOError`. -/
inductive Font where
  | truetype (path : String) (size : ℕ)
  | loadDefault
deriving DecidableEq

/-- A PIL image as the bot observes it: its dimensions and the text items
drawn onto it, in drawing order (position, string, font).  Pixel content
other than drawn text plays no role in the claims. -/
structure Img where
  width : ℕ
  height : ℕ
  texts : List (ℕ × ℕ × String × Font)
deriving DecidableEq

/-- `Image.open(bg_path)` guarded by `try/except IOError`
(weather_bot.py lines 128-131): a readable asset is used as-is, a missing
or unreadable one falls back to `Image.new("RGBA", (800, 400),
(200, 200, 200, 255))`, the solid neutral-gray canvas. -/
def loadBackground (assets : String → Option Img) (path : String) : Img :=
  match assets path with
  | some img => img
  | none => ⟨800, 400, []⟩

/-- `ImageFont.truetype("DejaVuSans.ttf", 36)` guarded by `try/except
IOError` with `ImageFont.load_default()` as fallback (lines 136-139). -/
def fontOf (fontLoaded : Bool) : Font :=
  if fontLoaded then .truetype "DejaVuSans.ttf" 36 else .loadDefault

/-- `draw.text` / `draw.multiline_text`: record the drawn string. -/
def drawText (img : Img) (x y : ℕ) (s : String) (f : Font) : Img :=
  { img with texts := img.texts ++ [(x, y, s, f)] }

/-- Round half to even, the rounding Python's fixed-point formatting
uses.  (Python rounds the binary double; on rationals that are not exact
ties of a binary double the results agree, and no claim depends on a tie.) -/
def roundHalfEven (q : ℚ) : ℤ :=
  if q - ⌊q⌋ < 1 / 2 then ⌊q⌋
  else if (1 : ℚ) / 2 < q - ⌊q⌋ then ⌊q⌋ + 1
  else if ⌊q⌋ % 2 = 0 then ⌊q⌋ else ⌊q⌋ + 1

/-- Python `f"{x:.1f}"`: one decimal place. -/
def fmt1 (q : ℚ) : String :=
  let n := roundHalfEven (q * 10)
  (if n < 0 then "-" else "") ++ toString (n.natAbs / 10) ++ "."
    ++ toString (n.natAbs % 10)

/-- The current-conditions text block drawn at (50, 50)
(weather_bot.py lines 142-148). -/
def weatherText (weather : CurrentData) (location : String) : String :=
  location ++ "\nПогода: " ++ pyCapitalize weather.description
    ++ "\nТемпература: " ++ fmt1 weather.temp ++ "°C"
    ++ "\nВетер: " ++ fmt1 weather.windSpeed ++ " м/с"

/-- The forecast-delta message of `generate_weather_image`
(weather_bot.py lines 150-164), the spec's `narrate`: no message when the
forecast is absent or its `list` is empty; otherwise compare the first
entry's category with the current one and produce the no-change message,
the fixed umbrella message on a change to Rain, or the generic message
interpolating the capitalized description. -/
def narrate (current : CurrentData) (forecast : Option ForecastData) :
    Option String :=
  match forecast with
  | none => none
  | some f =>
    match f.entries with
    | [] => none
    | nextForecast :: _ =>
      if nextForecast.main ≠ current.main then
        if nextForecast.main = "Rain" then
          some "Прогноз: дождь. Не забудьте взять зонт!"
        else some ("Прогноз: " ++ pyCapitalize nextForecast.description)
      else some "Погода не изменится."

/-- `generate_weather_image` (weather_bot.py lines 104-170): select the
background by current category, load it with the gray-canvas fallback,
load the font with its fallback, draw the current-conditions block at
(50, 50), and draw the forecast message at (50, 200) when there is one.
The final PNG encoding is a total byte serialization of the composited
image and is not modelled beyond the image itself. -/
def generateWeatherImage (assets : String → Option Img) (fontLoaded : Bool)
    (weather : CurrentData) (forecast : Option ForecastData)
    (location : String) : Img :=
  let bg := loadBackground assets (backgroundPath weather.main)
  let font := fontOf fontLoaded
  let img1 := drawText bg 50 50 (weatherText weather location) font
  match narrate weather forecast with
  | some msg => drawText img1 50 200 msg font
  | none => img1

/-- The caption built by `weather_handler` (weather_bot.py lines
199-223); an independent copy of the overlay logic in the source. -/
def caption (current : CurrentData) (forecast : Option ForecastData)
    (location : String) : String :=
  let base := location ++ "\nПогода: " ++ pyCapitalize current.description
    ++ "\nТемпература: " ++ fmt1 current.temp ++ "°C"
    ++ "\nВетер: " ++ fmt1 current.windSpeed ++ " м/с"
  match forecast with
  | none => base
  | some f =>
    match f.entries with
    | [] => base
    | nextForecast :: _ =>
      if nextForecast.main ≠ current.main then
        if nextForecast.main = "Rain" then
          base ++ "\nПрогноз: дождь. Не забудьте взять зонт!"
        else base ++ ("\nПрогноз: " ++ pyCapitalize nextForecast.description)
      else base ++ "\nПогода не изменится."

/-- Append an optional forecast line to a text block. -/
def appendForecastLine (base : String) (msg : Option String) : String :=
  match msg with
  | none => base
  | some m => base ++ "\n" ++ m

/-- What `weather_handler` sends back: `reply_text` on failure,
`reply_photo` with a caption on success. -/
inductive HandlerReply where
  | replyText (text : String)
  | replyPhoto (photo : Img) (captionText : String)

/-- The uniform user-facing error message of `weather_handler`
(lines 191-193). -/
def invalidInputMsg : String :=
  "Проверьте правильность ввода. Используйте формат \x27Город\x27 или \x27широта, долгота\x27."

/-- `weather_handler` (weather_bot.py lines 180-226): strip the message
text, call `get_weather`, reply with the uniform error text when it
returned `None`, otherwise render the image and reply with the photo and
its caption. -/
def weatherHandler (cache : Cache) (now : ℚ) (assets : String → Option Img)
    (fontLoaded : Bool) (messageText : String)
    (fetchCurrent : CurrentFetchResult) (fetchForecast : Option ForecastData) :
    HandlerReply × Cache :=
  let location := pyStrip messageText
  let r := getWeather cache now location fetchCurrent fetchForecast
  match r.result with
  | none => (.replyText invalidInputMsg, r.cache)
  | some (c, f) =>
    (.replyPhoto (generateWeatherImage assets fontLoaded c f location)
      (caption c f location), r.cache)

/-- No usable cache entry for the key: the key is absent, or every stored
entry has aged at least `CACHE_TTL` by time `now`. -/
def staleOrMissing (cache : Cache) (key : String) (now : ℚ) : Prop :=
  ∀ e, cache key = some e → CACHE_TTL ≤ now - e.timestamp

/-- Concrete snapshot used by the witnesses below. -/
def sampleCurrent : CurrentData := ⟨"Clear", "clear sky", 20, 3⟩

lemma splitOnComma_ne_nil (cs : List Char) : splitOnComma cs ≠ [] := by
  induction cs with
  | nil => simp [splitOnComma]
  | cons c rest ih =>
    unfold splitOnComma
    by_cases h : c = ','
    · simp [h]
    · simp only [h, if_false]
      cases hs : splitOnComma rest with
      | nil => simp
      | cons a t => simp

lemma splitOnComma_length (cs : List Char) :
    (splitOnComma cs).length = cs.count ',' + 1 := by
  induction cs with
  | nil => simp [splitOnComma]
  | cons c rest ih =>
    unfold splitOnComma
    by_cases h : c = ','
    · subst h; simp [List.count_cons, ih]
    · simp only [h, if_false]
      cases hs : splitOnComma rest with
      | nil => exact absurd hs (splitOnComma_ne_nil rest)
      | cons a t =>
        simp [List.count_cons, h, ← ih, hs]

lemma mem_comma_iff_two_le (cs : List Char) :
    ',' ∈ cs ↔ 2 ≤ (splitOnComma cs).length := by
  rw [splitOnComma_length]
  constructor
  · intro h
    have := List.count_pos_iff.mpr h
    omega
  · intro h
    have : 0 < cs.count ',' := by omega
    exact List.count_pos_iff.mp this

/-- C3 (amended): `resolve` equals the amended description — the input is
split on EVERY comma, the first two fields are trimmed and parsed as
floats and any later fields are ignored; on success the coordinates are
returned and on any parse failure (or no comma) the entire original
string is a named place — and the three example inputs of the claim
behave as the claim states. -/
theorem resolve_amended_thm :
    (∀ s, resolve s = resolveAmended s) ∧
    resolve "55.75, 37.61" = .Coordinates (mkRat 5575 100) (mkRat 3761 100) ∧
    resolve "55.75, not-a-number" = .NamedPlace "55.75, not-a-number" ∧
    resolve "Berlin" = .NamedPlace "Berlin" := by
  refine ⟨?_, by decide, by decide, by decide⟩
  intro s
  unfold resolve resolveAmended
  by_cases h : ',' ∈ s.data
  · have hlen := (mem_comma_iff_two_le s.data).mp h
    cases hsp : splitOnComma s.data with
    | nil => exact absurd hsp (splitOnComma_ne_nil _)
    | cons p0 rest =>
      cases rest with
      | nil => rw [hsp] at hlen; simp at hlen
      | cons p1 t => simp [h, hsp]
  · have hlen : (splitOnComma s.data).length = 1 := by
      rw [splitOnComma_length]
      have : s.data.count ',' = 0 := List.count_eq_zero.mpr h
      omega
    cases hsp : splitOnComma s.data with
    | nil => exact absurd hsp (splitOnComma_ne_nil _)
    | cons p0 rest =>
      cases rest with
      | nil => simp [h, hsp]
      | cons p1 t => rw [hsp] at hlen; simp at hlen

/-- C3 (counterexample): on `"1,2,3"` the code parses the first two
comma-separated fields and returns `Coordinates 1 2`, whereas splitting
on the first comma into exactly two parts — as the claim states — would
fail to parse `"2,3"` and return the whole string as a named place. -/
theorem resolve_c3_counterexample :
    resolve "1,2,3" = .Coordinates 1 2 ∧
    resolveSpec "1,2,3" = .NamedPlace "1,2,3" ∧
    resolve "1,2,3" ≠ resolveSpec "1,2,3" := by decide

/-- C5 (counterexample): the code maps the `"Fog"` category to the
default asset, not to a fog asset as the claim states; `backgroundSpec`
is the claim's mapping. -/
theorem backgroundPath_c5_counterexample :
    backgroundPath "Fog" = "assets/default.png" ∧
    backgroundSpec "Fog" = "assets/fog.png" ∧
    backgroundPath "Fog" ≠ backgroundSpec "Fog" := by decide

/-- C5 (amended): Clear maps to the sunny asset, Rain to rain, Snow to
snow, Clouds to cloudy, and every other category — including Fog, Mist
and Haze — to the default asset. -/
theorem backgroundPath_amended (m : String) :
    backgroundPath "Clear" = "assets/sunny.png" ∧
    backgroundPath "Rain" = "assets/rain.png" ∧
    backgroundPath "Snow" = "assets/snow.png" ∧
    backgroundPath "Clouds" = "assets/cloudy.png" ∧
    (m ≠ "Clear" → m ≠ "Rain" → m ≠ "Snow" → m ≠ "Clouds" →
      backgroundPath m = "assets/default.png") := by
  refine ⟨by decide, by decide, by decide, by decide, ?_⟩
  intro h1 h2 h3 h4
  simp [backgroundPath, h1, h2, h3, h4]

/-- Witness for C5 (amended) at the concrete category `"Fog"`. -/
theorem backgroundPath_amended_witness :
    backgroundPath "Fog" = "assets/default.png" :=
  (backgroundPath_amended "Fog").2.2.2.2 (by decide) (by decide) (by decide)
    (by decide)

/-- C4: `narrate` returns no message when the forecast is absent or
empty; for a nonempty forecast it consults only the first entry and
returns the fixed no-change message when its category equals the current
one, the fixed umbrella message when the categories differ and the
forecast category is Rain — irrespective of the description — and
otherwise the message interpolating the description. -/
theorem narrate_c4 (c : CurrentData) (nf : ForecastEntry)
    (rest rest2 : List ForecastEntry) :
    narrate c none = none ∧
    narrate c (some ⟨[]⟩) = none ∧
    narrate c (some ⟨nf :: rest⟩) =
      some (if nf.main = c.main then "Погода не изменится."
        else if nf.main = "Rain" then "Прогноз: дождь. Не забудьте взять зонт!"
        else "Прогноз: " ++ pyCapitalize nf.description) ∧
    narrate c (some ⟨nf :: rest⟩) = narrate c (some ⟨nf :: rest2⟩) := by
  refine ⟨rfl, rfl, ?_, rfl⟩
  by_cases h : nf.main = c.main
  · simp [narrate, h]
  · by_cases h2 : nf.main = "Rain"
    · have hc : ¬ "Rain" = c.main := h2 ▸ h
      simp [narrate, h, h2, hc]
    · simp [narrate, h, h2]

/-- C6: the caption built by the handler consists of exactly the overlay
fields — the current-conditions text block drawn on the image followed,
when present, by the very forecast message drawn on the image — and the
image carries exactly those drawn strings, so the text channel and the
visual channel always agree. -/
theorem caption_matches_overlay (assets : String → Option Img)
    (fontLoaded : Bool) (c : CurrentData) (f : Option ForecastData)
    (loc : String) :
    caption c f loc = appendForecastLine (weatherText c loc) (narrate c f) ∧
    (generateWeatherImage assets fontLoaded c f loc).texts =
      (loadBackground assets (backgroundPath c.main)).texts ++
        (50, 50, weatherText c loc, fontOf fontLoaded) ::
        (match narrate c f with
         | none => []
         | some m => [(50, 200, m, fontOf fontLoaded)]) := by
  constructor
  · cases f with
    | none => rfl
    | some fd =>
      cases fd with
      | mk entries =>
        cases entries with
        | nil => rfl
        | cons nf t =>
          by_cases h : nf.main = c.main
          · simp [caption, narrate, weatherText, appendForecastLine, h,
              String.append_assoc]
          · by_cases h2 : nf.main = "Rain"
            · have hc : ¬ "Rain" = c.main := h2 ▸ h
              simp [caption, narrate, weatherText, appendForecastLine, h,
                h2, hc, String.append_assoc]
            · simp only [caption, narrate, weatherText, appendForecastLine,
                h, h2, ne_eq, not_false_eq_true, if_true, if_neg, ite_true,
                ite_false, String.append_assoc]
              rfl
  · cases hn : narrate c f <;>
      simp [generateWeatherImage, drawText, hn]

/-- C7: when the selected background asset is missing or unreadable,
`generateWeatherImage` still totally produces an image, on the fallback
solid canvas of the fixed 800 by 400 dimensions, for either font-loading
outcome. -/
theorem generateWeatherImage_fallback (assets : String → Option Img)
    (fontLoaded : Bool) (c : CurrentData) (f : Option ForecastData)
    (loc : String) (h : assets (backgroundPath c.main) = none) :
    (generateWeatherImage assets fontLoaded c f loc).width = 800 ∧
    (generateWeatherImage assets fontLoaded c f loc).height = 400 := by
  cases hn : narrate c f <;>
    simp [generateWeatherImage, loadBackground, drawText, hn, h]

/-- Witness for C7: an asset store with no readable file and a failing
font load still yield the 800 by 400 canvas. -/
theorem generateWeatherImage_fallback_witness :
    (generateWeatherImage (fun _ => none) false sampleCurrent
      none "Berlin").width = 800 ∧
    (generateWeatherImage (fun _ => none) false sampleCurrent
      none "Berlin").height = 400 :=
  generateWeatherImage_fallback (fun _ => none) false
    sampleCurrent none "Berlin" rfl

lemma getWeatherFetch_failure (cache : Cache) (key : String) (now : ℚ)
    (ff : Option ForecastData) (fc : CurrentFetchResult)
    (h : fc = .httpNot200 ∨ fc = .codNot200) :
    getWeatherFetch cache key now fc ff = ⟨none, cache, true⟩ := by
  rcases h with h | h <;> subst h <;> rfl

lemma getWeather_stale_eq_fetch (cache : Cache) (now : ℚ) (loc : String)
    (fc : CurrentFetchResult) (ff : Option ForecastData)
    (h : staleOrMissing cache (pyLower loc) now) :
    getWeather cache now loc fc ff =
      getWeatherFetch cache (pyLower loc) now fc ff := by
  cases hc : cache (pyLower loc) with
  | none => simp only [getWeather, hc]
  | some e =>
    have h2 := h e hc
    simp only [getWeather, hc]
    rw [if_neg (not_lt.mpr h2)]

lemma getWeather_cache_of_fetched (cache : Cache) (now : ℚ) (loc : String)
    (c : CurrentData) (ff : Option ForecastData)
    (h : (getWeather cache now loc (.success c) ff).fetched = true) :
    (getWeather cache now loc (.success c) ff).cache =
      updateCache cache (pyLower loc) ⟨now, c, ff⟩ := by
  cases hc : cache (pyLower loc) with
  | none => simp only [getWeather, hc]; rfl
  | some e =>
    simp only [getWeather, hc] at h ⊢
    by_cases hf : now - e.timestamp < CACHE_TTL
    · rw [if_pos hf] at h; cases h
    · rw [if_neg hf]; rfl

/-- C1: after a first call that performed a successful fetch at time
`t0`, a second call for the same location strictly within `CACHE_TTL`
(600 seconds) issues no fetch and returns exactly the stored
snapshot/forecast pair with the cache unchanged, while a second call once
`CACHE_TTL` seconds or more have elapsed since the stored timestamp
issues the fetch again. -/
theorem getWeather_ttl (cache : Cache) (t0 t1 : ℚ) (loc : String)
    (c : CurrentData) (ff : Option ForecastData)
    (fc2 : CurrentFetchResult) (ff2 : Option ForecastData)
    (hfetch : (getWeather cache t0 loc (.success c) ff).fetched = true) :
    (t1 - t0 < CACHE_TTL →
      getWeather (getWeather cache t0 loc (.success c) ff).cache t1 loc fc2 ff2
        = ⟨some (c, ff), (getWeather cache t0 loc (.success c) ff).cache,
            false⟩) ∧
    (CACHE_TTL ≤ t1 - t0 →
      (getWeather (getWeather cache t0 loc (.success c) ff).cache t1 loc fc2
        ff2).fetched = true) := by
  have hcache := getWeather_cache_of_fetched cache t0 loc c ff hfetch
  rw [hcache]
  have hkey : updateCache cache (pyLower loc) ⟨t0, c, ff⟩ (pyLower loc) =
      some ⟨t0, c, ff⟩ := by simp [updateCache]
  constructor
  · intro hlt
    simp only [getWeather, hkey]
    rw [if_pos hlt]
  · intro hge
    simp only [getWeather, hkey]
    rw [if_neg (not_lt.mpr hge)]
    cases fc2 <;> rfl

/-- Witness for C1: a fetch at time 0 into an empty cache is answered at
time 10 from the cache, without a fetch, with the stored pair. -/
theorem getWeather_ttl_witness :
    getWeather
      (getWeather (fun _ => none) 0 "Berlin" (.success sampleCurrent)
        none).cache 10 "Berlin" .httpNot200 none
      = ⟨some (sampleCurrent, none),
          (getWeather (fun _ => none) 0 "Berlin" (.success sampleCurrent)
            none).cache, false⟩ :=
  (getWeather_ttl (fun _ => none) 0 10 "Berlin" sampleCurrent none
    .httpNot200 none rfl).1 (by norm_num [CACHE_TTL])

/-- C2: when the current-conditions fetch fails — HTTP failure or a
not-found `cod` — `get_weather` leaves the entire cache mapping
unchanged (no entry is evicted, overwritten, or added), and whenever the
fetch was actually performed the call returns the failure. -/
theorem getWeather_failure_keeps_cache (cache : Cache) (now : ℚ)
    (loc : String) (fc : CurrentFetchResult) (ff : Option ForecastData)
    (h : fc = .httpNot200 ∨ fc = .codNot200) :
    (getWeather cache now loc fc ff).cache = cache ∧
    ((getWeather cache now loc fc ff).fetched = true →
      (getWeather cache now loc fc ff).result = none) := by
  cases hc : cache (pyLower loc) with
  | none =>
    simp [getWeather, hc,
      getWeatherFetch_failure cache (pyLower loc) now ff fc h]
  | some e =>
    by_cases hf : now - e.timestamp < CACHE_TTL
    · simp only [getWeather, hc]
      rw [if_pos hf]
      exact ⟨rfl, fun hx => by cases hx⟩
    · simp only [getWeather, hc]
      rw [if_neg hf,
        getWeatherFetch_failure cache (pyLower loc) now ff fc h]
      exact ⟨rfl, fun _ => rfl⟩

/-- Witness for C2: a failing fetch on an empty cache changes nothing and
returns the failure. -/
theorem getWeather_failure_keeps_cache_witness :
    (getWeather (fun _ => none) 0 "Berlin" .httpNot200 none).cache
      = (fun _ => none) ∧
    ((getWeather (fun _ => none) 0 "Berlin" .httpNot200 none).fetched = true →
      (getWeather (fun _ => none) 0 "Berlin" .httpNot200 none).result
        = none) :=
  getWeather_failure_keeps_cache (fun _ => none) 0 "Berlin" .httpNot200 none
    (Or.inl rfl)

/-- C8: when the current-conditions fetch succeeds but the best-effort
forecast fetch fails, the lookup still succeeds: the snapshot is
returned and cached under the key with an absent forecast. -/
theorem getWeather_forecast_best_effort (cache : Cache) (now : ℚ)
    (loc : String) (c : CurrentData)
    (h : staleOrMissing cache (pyLower loc) now) :
    getWeather cache now loc (.success c) none =
      ⟨some (c, none), updateCache cache (pyLower loc) ⟨now, c, none⟩,
        true⟩ := by
  rw [getWeather_stale_eq_fetch cache now loc (.success c) none h]
  rfl

/-- Witness for C8 on an empty cache. -/
theorem getWeather_forecast_best_effort_witness :
    getWeather (fun _ => none) 0 "Berlin" (.success sampleCurrent) none =
      ⟨some (sampleCurrent, none),
        updateCache (fun _ => none) (pyLower "Berlin")
          ⟨0, sampleCurrent, none⟩, true⟩ :=
  getWeather_forecast_best_effort (fun _ => none) 0 "Berlin" sampleCurrent
    (fun _e h => Option.noConfusion h)

/-- C9: when the lookup must fetch and the fetch fails, the handler's
observable outcome — reply and cache — is identical for the
provider-not-found cause and the fetch-not-completed cause, and is the
single uniform user-facing error message; the caller cannot distinguish
which failure occurred. -/
theorem weatherHandler_uniform_error (cache : Cache) (now : ℚ)
    (assets : String → Option Img) (fontLoaded : Bool) (messageText : String)
    (ff1 ff2 : Option ForecastData)
    (h : staleOrMissing cache (pyLower (pyStrip messageText)) now) :
    weatherHandler cache now assets fontLoaded messageText .httpNot200 ff1 =
      weatherHandler cache now assets fontLoaded messageText .codNot200 ff2 ∧
    weatherHandler cache now assets fontLoaded messageText .httpNot200 ff1 =
      (.replyText invalidInputMsg, cache) := by
  simp only [weatherHandler]
  rw [getWeather_stale_eq_fetch _ _ _ _ _ h,
    getWeather_stale_eq_fetch _ _ _ _ _ h]
  exact ⟨rfl, rfl⟩

/-- Witness for C9 on an empty cache. -/
theorem weatherHandler_uniform_error_witness :
    weatherHandler (fun _ => none) 0 (fun _ => none) false "Berlin"
        .httpNot200 none =
      weatherHandler (fun _ => none) 0 (fun _ => none) false "Berlin"
        .codNot200 none ∧
    weatherHandler (fun _ => none) 0 (fun _ => none) false "Berlin"
        .httpNot200 none =
      (.replyText invalidInputMsg, (fun _ => none)) :=
  weatherHandler_uniform_error (fun _ => none) 0 (fun _ => none) false
    "Berlin" none none (fun _e h => Option.noConfusion h)

/-- C10: `get_weather` samples the clock exactly once, at entry; the call
fetches precisely when that sampled value finds no fresh entry, and on a
successful fetch the very same sampled value — captured before the
upstream request was issued — is the timestamp stored in the new cache
entry. -/
theorem getWeather_timestamp_from_start (cache : Cache) (now : ℚ)
    (loc : String) (fc : CurrentFetchResult) (c : CurrentData)
    (ff : Option ForecastData) :
    ((getWeather cache now loc fc ff).fetched = true ↔
      staleOrMissing cache (pyLower loc) now) ∧
    ((getWeather cache now loc (.success c) ff).fetched = true →
      (getWeather cache now loc (.success c) ff).cache (pyLower loc) =
        some ⟨now, c, ff⟩) := by
  constructor
  · cases hc : cache (pyLower loc) with
    | none =>
      simp only [getWeather, hc]
      constructor
      · intro _ e he
        rw [hc] at he
        cases he
      · intro _
        cases fc <;> rfl
    | some e =>
      simp only [getWeather, hc]
      by_cases hf : now - e.timestamp < CACHE_TTL
      · rw [if_pos hf]
        constructor
        · intro hx; cases hx
        · intro hs
          exact absurd hf (not_lt.mpr (hs e hc))
      · rw [if_neg hf]
        constructor
        · intro _ e2 he2
          rw [hc] at he2
          cases he2
          exact not_lt.mp hf
        · intro _
          cases fc <;> rfl
  · intro hfetch
    rw [getWeather_cache_of_fetched cache now loc c ff hfetch]
    simp [updateCache]

/-- Witness for C10: the entry stored by a fetch at time 0 carries
timestamp 0. -/
theorem getWeather_timestamp_from_start_witness :
    (getWeather (fun _ => none) 0 "Berlin" (.success sampleCurrent)
      none).cache (pyLower "Berlin") = some ⟨0, sampleCurrent, none⟩ :=
  (getWeather_timestamp_from_start (fun _ => none) 0 "Berlin"
    (.success sampleCurrent) sampleCurrent none).2 rfl
